import Mathlib

/-!
Verification of the core allocation logic of the Alpaca-Buyer bot
(`src/main.py`), shallowly embedded in Lean 4.

Modelling conventions:
* Python floats are modelled as exact rationals (`ℚ`); the spec states its
  numeric properties in real arithmetic.
* The `float(...)` string parser of Python is modelled by `pyFloat` on the
  ordinary decimal grammar (optional sign, digits with optional fraction,
  optional exponent, surrounding whitespace); non-finite literals such as
  `inf`/`nan` and digit underscores are outside the model.
* `round(x, 2)` is modelled by `round2`, round-half-to-even at two decimals
  on exact rationals.
* The order-submission collaborator (`trading_client.submit_order`), which
  may fail per call, is modelled by a boolean oracle `ok : String → ℚ → Bool`
  telling whether the submission for a given symbol/notional succeeds; a
  `false` answer corresponds to the exception caught at lines 286-287.
* The per-row body of `run_bot` (lines 217-288) is `processRow`; the loop is
  `run_bot`, which returns the final state and the per-row outcomes.
-/

/-- Model of Python `str.strip()`: drop whitespace from both ends. (Defined
on the character list so that it evaluates by kernel reduction.) -/
def pyStrip (s : String) : String :=
  String.mk (((s.toList.dropWhile Char.isWhitespace).reverse.dropWhile Char.isWhitespace).reverse)

/-- Model of Python `str.upper()` (ASCII range, enough for ticker symbols). -/
def pyUpper (s : String) : String :=
  String.mk (s.toList.map Char.toUpper)

/-- Value of a digit list read in base 10 (helper for the float grammar). -/
def digitsToNat (ds : List Char) : ℕ :=
  ds.foldl (fun a c => a * 10 + (c.toNat - 48)) 0

/-- Mantissa part of the decimal grammar: `digits [. digits] | . digits`.
Returns the value and the unconsumed remainder. -/
def parseUnsigned (cs : List Char) : Option (ℚ × List Char) :=
  let intPart := cs.takeWhile Char.isDigit
  let rest1 := cs.dropWhile Char.isDigit
  match rest1 with
  | '.' :: rest2 =>
    let fracPart := rest2.takeWhile Char.isDigit
    let rest3 := rest2.dropWhile Char.isDigit
    if intPart.isEmpty ∧ fracPart.isEmpty then none
    else some ((digitsToNat intPart : ℚ) + (digitsToNat fracPart : ℚ) / (10 : ℚ) ^ fracPart.length, rest3)
  | _ =>
    if intPart.isEmpty then none
    else some ((digitsToNat intPart : ℚ), rest1)

/-- Model of Python `float(s)` on a string: strips surrounding whitespace,
optional sign, decimal mantissa, optional `e`/`E` exponent; `none` when the
string is not a decimal number (Python raises `ValueError` there). -/
def pyFloat (s : String) : Option ℚ :=
  let cs := (pyStrip s).toList
  let signed : ℚ × List Char :=
    match cs with
    | '+' :: t => (1, t)
    | '-' :: t => (-1, t)
    | t => (1, t)
  match parseUnsigned signed.2 with
  | none => none
  | some (m, rest) =>
    match rest with
    | [] => some (signed.1 * m)
    | c :: t =>
      if c = 'e' ∨ c = 'E' then
        let esigned : ℤ × List Char :=
          match t with
          | '+' :: u => (1, u)
          | '-' :: u => (-1, u)
          | u => (1, u)
        let ds := esigned.2.takeWhile Char.isDigit
        let rest2 := esigned.2.dropWhile Char.isDigit
        if ds.isEmpty ∨ ¬ rest2.isEmpty then none
        else some (signed.1 * m * (10 : ℚ) ^ (esigned.1 * (digitsToNat ds : ℤ)))
      else none

/-- `safe_float` (src/main.py lines 25-36): `None`/blank input gives `none`,
all `%` characters are removed, then the string is parsed as a float;
a parse failure gives `none` instead of an exception. -/
def safe_float : Option String → Option ℚ
  | none => none
  | some v =>
    if pyStrip v = "" then none
    else pyFloat (String.mk ((pyStrip v).toList.filter fun c => c ≠ '%'))

/-- `get_bracket_pct` (src/main.py lines 114-134). -/
def get_bracket_pct (percent_down : ℚ) : Option ℚ :=
  if percent_down < 0 then none
  else if 0 ≤ percent_down ∧ percent_down ≤ 25 then some (5 / 100)
  else if 25 < percent_down ∧ percent_down ≤ 50 then some (10 / 100)
  else if 50 < percent_down ∧ percent_down ≤ 75 then some (15 / 100)
  else some (20 / 100)

/-- `ICON_MULTIPLIERS` (src/main.py lines 105-111), in source order. -/
def ICON_MULTIPLIERS : List (String × ℚ) :=
  [("💎", 1), ("💥", 9 / 10), ("🚀", 8 / 10), ("✨", 7 / 10), ("📊", 6 / 10)]

/-- The sentiment-multiplier resolution of `compute_order_notional`
(src/main.py lines 170-176): default `0.1` when the raw value is absent,
blank, unparseable, or parses to a non-positive number; the parsed value
itself when positive. -/
def sentimentMult : Option String → ℚ
  | none => 1 / 10
  | some s =>
    if pyStrip s = "" then 1 / 10
    else
      match safe_float (some s) with
      | some v => if 0 < v then v else 1 / 10
      | none => 1 / 10

/-- `compute_order_notional` (src/main.py lines 137-181): bracket lookup,
icon-multiplier lookup on the trimmed icon, positive-price guard, then the
product `buying_power * bracket * icon * (long_ma / price) * sentiment`. -/
def compute_order_notional (buying_power percent_down : ℚ) (icon : String)
    (long_ma price : ℚ) (sentiment_raw : Option String) : Option ℚ :=
  match get_bracket_pct percent_down with
  | none => none
  | some bracket_pct =>
    match List.lookup (pyStrip icon) ICON_MULTIPLIERS with
    | none => none
    | some icon_mult =>
      if price ≤ 0 then none
      else some (buying_power * bracket_pct * icon_mult * (long_ma / price) * sentimentMult sentiment_raw)

/-- Round-half-to-even to an integer (the rounding mode of Python `round`). -/
def roundHalfEven (x : ℚ) : ℤ :=
  let f := ⌊x⌋
  let r := x - (f : ℚ)
  if r < 1 / 2 then f
  else if 1 / 2 < r then f + 1
  else if f % 2 = 0 then f else f + 1

/-- Model of Python `round(x, 2)` on exact rationals. -/
def round2 (x : ℚ) : ℚ := (roundHalfEven (x * 100) : ℚ) / 100

/-- The pipeline's output unit: an uppercase symbol and a rounded notional. -/
structure OrderDecision where
  symbol : String
  notional : ℚ
deriving DecidableEq

/-- What happened to one spreadsheet row: skipped by a validation step,
submitted successfully, or reached submission which then failed. -/
inductive RowOutcome where
  | skipped : RowOutcome
  | submitted : OrderDecision → RowOutcome
  | failed : OrderDecision → RowOutcome
deriving DecidableEq

/-- `RunState` of one execution of `run_bot` (src/main.py lines 214-215). -/
structure BotState where
  seen : List String
  submitted : ℕ
deriving DecidableEq

/-- The `cell` helper of `run_bot` (src/main.py lines 219-220): a field
beyond the row's length is the empty string. -/
def cell (row : List String) (i : ℕ) : String := row.getD i ""

/-- Symbol normalisation of `run_bot` line 222: `strip().upper()` on
column A. -/
def normSymbol (row : List String) : String := pyUpper (pyStrip (cell row 0))

/-- `MIN_NOTIONAL` (src/main.py line 212). -/
def MIN_NOTIONAL : ℚ := 1

/-- The state-independent middle of the row body (src/main.py lines
237-269): parse price (B), percent-down (C) and long MA (J); compute the
notional; drop it below `MIN_NOTIONAL`; otherwise round to 2 decimals. -/
def rowNotional (bp : ℚ) (row : List String) : Option ℚ :=
  match safe_float (some (cell row 1)), safe_float (some (cell row 2)), safe_float (some (cell row 9)) with
  | some price, some pct_down, some long_ma =>
    match compute_order_notional bp pct_down (cell row 15) long_ma price (some (cell row 16)) with
    | some n => if n < MIN_NOTIONAL then none else some (round2 n)
    | none => none
  | _, _, _ => none

/-- The decision a row would yield ignoring run state entirely: its symbol
must be nonempty and `rowNotional` must succeed. -/
def rowDecision (bp : ℚ) (row : List String) : Option OrderDecision :=
  if normSymbol row = "" then none
  else (rowNotional bp row).map fun n => ⟨normSymbol row, n⟩

/-- One iteration of the row loop of `run_bot` (src/main.py lines 217-288):
empty-symbol skip, dedup skip, parse/compute/floor skips, then submission;
only a successful submission updates `seen` and the counter (lines 282-287). -/
def processRow (bp : ℚ) (ok : String → ℚ → Bool) (st : BotState) (row : List String) :
    BotState × RowOutcome :=
  if normSymbol row = "" then (st, .skipped)
  else if normSymbol row ∈ st.seen then (st, .skipped)
  else
    match rowNotional bp row with
    | none => (st, .skipped)
    | some n =>
      if ok (normSymbol row) n then
        (⟨normSymbol row :: st.seen, st.submitted + 1⟩, .submitted ⟨normSymbol row, n⟩)
      else (st, .failed ⟨normSymbol row, n⟩)

/-- The row loop of `run_bot` over the data rows (header already removed):
final state plus the outcome of every row in order. -/
def run_bot (bp : ℚ) (ok : String → ℚ → Bool) : BotState → List (List String) → BotState × List RowOutcome
  | st, [] => (st, [])
  | st, row :: rows =>
    let p := processRow bp ok st row
    let r := run_bot bp ok p.1 rows
    (r.1, p.2 :: r.2)

/-- The orders actually submitted during a run, in order. -/
def submittedDecisions (os : List RowOutcome) : List OrderDecision :=
  os.filterMap fun o =>
    match o with
    | .submitted d => some d
    | _ => none

/-- A concrete spreadsheet row used to instantiate the general theorems:
symbol `AAPL`, price 100 (column B), percent-down 0 (column C), long moving
average 100 (column J), icon `💎` (column P), sentiment `1` (column Q). -/
def sampleRow : List String :=
  ["AAPL", "100", "0", "", "", "", "", "", "", "100", "", "", "", "", "", "💎", "1"]

/-- Claim C1: `get_bracket_pct` returns `none` for negative input, `0.05` on
`[0, 25]`, `0.10` on `(25, 50]`, `0.15` on `(50, 75]` and `0.20` above `75`;
in particular the boundaries 25, 50 and 75 resolve to the lower bracket. -/
theorem bracket_resolver_spec (p : ℚ) :
    (p < 0 → get_bracket_pct p = none) ∧
    (0 ≤ p → p ≤ 25 → get_bracket_pct p = some (5 / 100)) ∧
    (25 < p → p ≤ 50 → get_bracket_pct p = some (10 / 100)) ∧
    (50 < p → p ≤ 75 → get_bracket_pct p = some (15 / 100)) ∧
    (75 < p → get_bracket_pct p = some (20 / 100)) := by
  unfold get_bracket_pct
  refine ⟨fun h => ?_, fun h0 h25 => ?_, fun h25 h50 => ?_, fun h50 h75 => ?_, fun h75 => ?_⟩
  · rw [if_pos h]
  · rw [if_neg (not_lt.mpr h0), if_pos ⟨h0, h25⟩]
  · have a : ¬ p < 0 := by linarith
    have b : ¬ (0 ≤ p ∧ p ≤ 25) := by rintro ⟨-, hx⟩; linarith
    rw [if_neg a, if_neg b, if_pos ⟨h25, h50⟩]
  · have a : ¬ p < 0 := by linarith
    have b : ¬ (0 ≤ p ∧ p ≤ 25) := by rintro ⟨-, hx⟩; linarith
    have c : ¬ (25 < p ∧ p ≤ 50) := by rintro ⟨-, hx⟩; linarith
    rw [if_neg a, if_neg b, if_neg c, if_pos ⟨h50, h75⟩]
  · have a : ¬ p < 0 := by linarith
    have b : ¬ (0 ≤ p ∧ p ≤ 25) := by rintro ⟨-, hx⟩; linarith
    have c : ¬ (25 < p ∧ p ≤ 50) := by rintro ⟨-, hx⟩; linarith
    have d : ¬ (50 < p ∧ p ≤ 75) := by rintro ⟨-, hx⟩; linarith
    rw [if_neg a, if_neg b, if_neg c, if_neg d]

/-- Witness for C1 at the boundary and out-of-range points. -/
theorem bracket_resolver_spec_witness :
    get_bracket_pct (-1) = none ∧
    get_bracket_pct 25 = some (5 / 100) ∧
    get_bracket_pct 50 = some (10 / 100) ∧
    get_bracket_pct 75 = some (15 / 100) ∧
    get_bracket_pct 76 = some (20 / 100) :=
  ⟨(bracket_resolver_spec (-1)).1 (by norm_num),
   (bracket_resolver_spec 25).2.1 (by norm_num) (by norm_num),
   (bracket_resolver_spec 50).2.2.1 (by norm_num) (by norm_num),
   (bracket_resolver_spec 75).2.2.2.1 (by norm_num) (by norm_num),
   (bracket_resolver_spec 76).2.2.2.2 (by norm_num)⟩

/-- Claim C7: `safe_float` returns `none` for `None`, empty or
whitespace-only input, strips `%` characters before parsing, returns `none`
for unparseable strings and never raises; `safe_float "12.5%" = 12.5`,
`safe_float "" = none`, `safe_float "abc" = none`. -/
theorem safe_float_spec :
    (∀ s : String, pyStrip s = "" → safe_float (some s) = none) ∧
    safe_float none = none ∧
    safe_float (some "12.5%") = some (25 / 2) ∧
    safe_float (some "") = none ∧
    safe_float (some "abc") = none := by
  refine ⟨fun s h => ?_, rfl, ?_, ?_, ?_⟩
  · simp [safe_float, h]
  · simp +decide [safe_float, pyFloat, parseUnsigned, digitsToNat, pyStrip] <;> norm_num
  · simp +decide [safe_float, pyStrip]
  · simp +decide [safe_float, pyFloat, parseUnsigned, digitsToNat, pyStrip]

/-- Witness for C7 on a whitespace-only string. -/
theorem safe_float_spec_witness :
    pyStrip "  " = "" ∧ safe_float (some "  ") = none :=
  ⟨by decide, safe_float_spec.1 "  " (by decide)⟩

/-- Claim C3: whenever every skip check passes (a bracket resolves, the
trimmed icon is in the table, the price is positive),
`compute_order_notional` returns exactly
`buying_power * bracket * icon_mult * (long_ma / price) * sentiment_mult`;
in particular the end-to-end scenario of the spec gives 11000. -/
theorem notional_formula :
    (∀ (bp pd ma price : ℚ) (icon : String) (sraw : Option String) (b m : ℚ),
      get_bracket_pct pd = some b →
      List.lookup (pyStrip icon) ICON_MULTIPLIERS = some m →
      0 < price →
      compute_order_notional bp pd icon ma price sraw =
        some (bp * b * m * (ma / price) * sentimentMult sraw)) ∧
    compute_order_notional 100000 10 "💎" 110 100 (some "2") = some 11000 := by
  constructor
  · intro bp pd ma price icon sraw b m hb hm hp
    simp [compute_order_notional, hb, hm, not_le.mpr hp]
  · simp +decide [compute_order_notional, get_bracket_pct, ICON_MULTIPLIERS, sentimentMult,
      safe_float, pyFloat, parseUnsigned, digitsToNat, pyStrip] <;> norm_num

/-- Witness for C3 at the spec's end-to-end scenario. -/
theorem notional_formula_witness :
    get_bracket_pct 10 = some (5 / 100) ∧
    List.lookup (pyStrip "💎") ICON_MULTIPLIERS = some 1 ∧
    (0 : ℚ) < 100 ∧
    compute_order_notional 100000 10 "💎" 110 100 (some "2") =
      some (100000 * (5 / 100) * 1 * (110 / 100) * sentimentMult (some "2")) :=
  ⟨by norm_num [get_bracket_pct], by decide, by norm_num,
   notional_formula.1 100000 10 110 100 "💎" (some "2") (5 / 100) 1
     (by norm_num [get_bracket_pct]) (by decide) (by norm_num)⟩

/-- Claim C4: for fixed other inputs, `compute_order_notional` gives the
same result for `sentiment_raw` absent, `"-3"`, and `"0.1"` (all resolve to
the multiplier 0.1); a positively-parsing sentiment value is used directly,
with no upper cap. -/
theorem sentiment_default_equiv :
    (∀ (bp pd ma price : ℚ) (icon : String),
      compute_order_notional bp pd icon ma price none =
        compute_order_notional bp pd icon ma price (some "0.1") ∧
      compute_order_notional bp pd icon ma price (some "-3") =
        compute_order_notional bp pd icon ma price (some "0.1")) ∧
    (∀ (s : String) (v : ℚ), safe_float (some s) = some v → 0 < v →
      sentimentMult (some s) = v) := by
  constructor
  · have h1 : sentimentMult none = sentimentMult (some "0.1") := by
      simp +decide [sentimentMult, safe_float, pyFloat, parseUnsigned, digitsToNat, pyStrip]
        <;> norm_num
    have h2 : sentimentMult (some "-3") = sentimentMult (some "0.1") := by
      simp +decide [sentimentMult, safe_float, pyFloat, parseUnsigned, digitsToNat, pyStrip]
        <;> norm_num
    intro bp pd ma price icon
    constructor
    · simp only [compute_order_notional, h1]
    · simp only [compute_order_notional, h2]
  · intro s v hv hpos
    have hne : ¬ pyStrip s = "" := by
      intro h
      rw [show safe_float (some s) = none from by simp [safe_float, h]] at hv
      exact Option.noConfusion hv
    simp [sentimentMult, hne, hv, hpos]

/-- Witness for C4 with the positively-parsing sentiment string `"5"`. -/
theorem sentiment_default_equiv_witness :
    safe_float (some "5") = some 5 ∧ (0 : ℚ) < 5 ∧ sentimentMult (some "5") = 5 :=
  ⟨by simp +decide [safe_float, pyFloat, parseUnsigned, digitsToNat, pyStrip],
   by norm_num,
   sentiment_default_equiv.2 "5" 5
     (by simp +decide [safe_float, pyFloat, parseUnsigned, digitsToNat, pyStrip])
     (by norm_num)⟩

/-- Claim C6: when the trimmed icon is not one of the five keys of
`ICON_MULTIPLIERS`, `compute_order_notional` returns `none` whatever the
other inputs are. -/
theorem unknown_icon_skips :
    ∀ (bp pd ma price : ℚ) (sraw : Option String) (icon : String),
      pyStrip icon ∉ ICON_MULTIPLIERS.map Prod.fst →
      compute_order_notional bp pd icon ma price sraw = none := by
  intro bp pd ma price sraw icon h
  simp only [ICON_MULTIPLIERS, List.map, List.mem_cons, List.not_mem_nil, or_false, not_or] at h
  obtain ⟨h1, h2, h3, h4, h5⟩ := h
  unfold compute_order_notional
  cases hb : get_bracket_pct pd with
  | none => rfl
  | some b =>
    have e1 : (pyStrip icon == "💎") = false := beq_eq_false_iff_ne.mpr h1
    have e2 : (pyStrip icon == "💥") = false := beq_eq_false_iff_ne.mpr h2
    have e3 : (pyStrip icon == "🚀") = false := beq_eq_false_iff_ne.mpr h3
    have e4 : (pyStrip icon == "✨") = false := beq_eq_false_iff_ne.mpr h4
    have e5 : (pyStrip icon == "📊") = false := beq_eq_false_iff_ne.mpr h5
    simp [ICON_MULTIPLIERS, List.lookup, e1, e2, e3, e4, e5]

/-- Witness for C6 with a blank icon. -/
theorem unknown_icon_skips_witness :
    pyStrip "" ∉ ICON_MULTIPLIERS.map Prod.fst ∧
    compute_order_notional 100000 10 "" 110 100 (some "2") = none :=
  ⟨by decide, unknown_icon_skips 100000 10 110 100 (some "2") "" (by decide)⟩

/-- Claim C8: `compute_order_notional` is total — every input yields `none`
or a value, there is no exception path — and every `price ≤ 0` yields `none`,
so the division `long_ma / price` is only reached for positive prices. -/
theorem compute_total_price_guard :
    (∀ (bp pd ma price : ℚ) (icon : String) (sraw : Option String),
      compute_order_notional bp pd icon ma price sraw = none ∨
      ∃ q, compute_order_notional bp pd icon ma price sraw = some q) ∧
    (∀ (bp pd ma price : ℚ) (icon : String) (sraw : Option String),
      price ≤ 0 → compute_order_notional bp pd icon ma price sraw = none) := by
  constructor
  · intro bp pd ma price icon sraw
    cases h : compute_order_notional bp pd icon ma price sraw with
    | none => exact Or.inl rfl
    | some q => exact Or.inr ⟨q, rfl⟩
  · intro bp pd ma price icon sraw hp
    unfold compute_order_notional
    cases hb : get_bracket_pct pd with
    | none => rfl
    | some b =>
      cases hm : List.lookup (pyStrip icon) ICON_MULTIPLIERS with
      | none => rfl
      | some m => simp [hp]

/-- Witness for C8 at price 0 (and price -5). -/
theorem compute_total_price_guard_witness :
    (0 : ℚ) ≤ 0 ∧ (-5 : ℚ) ≤ 0 ∧
    compute_order_notional 100000 10 "💎" 110 0 (some "2") = none ∧
    compute_order_notional 100000 10 "💎" 110 (-5) (some "2") = none :=
  ⟨by norm_num, by norm_num,
   compute_total_price_guard.2 100000 10 110 0 "💎" (some "2") (by norm_num),
   compute_total_price_guard.2 100000 10 110 (-5) "💎" (some "2") (by norm_num)⟩

/-- Claim C5: the minimum-size floor is applied to the unrounded notional —
a computed notional strictly below 1 is dropped, one of at least 1 is kept,
and the emitted value is the notional rounded to two decimals. -/
theorem min_notional_floor :
    ∀ (bp : ℚ) (row : List String) (price pct ma n : ℚ),
      safe_float (some (cell row 1)) = some price →
      safe_float (some (cell row 2)) = some pct →
      safe_float (some (cell row 9)) = some ma →
      compute_order_notional bp pct (cell row 15) ma price (some (cell row 16)) = some n →
      (n < 1 → rowNotional bp row = none) ∧
      (1 ≤ n → rowNotional bp row = some (round2 n)) := by
  intro bp row price pct ma n h1 h2 h3 hc
  unfold rowNotional
  rw [h1, h2, h3]
  constructor
  · intro hlt
    simp [hc, MIN_NOTIONAL, hlt]
  · intro hge
    simp [hc, MIN_NOTIONAL, not_lt.mpr hge]

/-- Witness for C5 at the boundary: notional 0.999 is dropped, notional 1 is
kept and rounded. -/
theorem min_notional_floor_witness :
    (999 / 1000 : ℚ) < 1 ∧ (1 : ℚ) ≤ 1 ∧
    rowNotional (999 / 50) sampleRow = none ∧
    rowNotional 20 sampleRow = some 1 := by
  have hpr : safe_float (some (cell sampleRow 1)) = some 100 := by
    simp +decide [cell, sampleRow, safe_float, pyFloat, parseUnsigned, digitsToNat, pyStrip]
  have hpd : safe_float (some (cell sampleRow 2)) = some 0 := by
    simp +decide [cell, sampleRow, safe_float, pyFloat, parseUnsigned, digitsToNat, pyStrip]
  have hma : safe_float (some (cell sampleRow 9)) = some 100 := by
    simp +decide [cell, sampleRow, safe_float, pyFloat, parseUnsigned, digitsToNat, pyStrip]
  have hc1 : compute_order_notional (999 / 50) 0 (cell sampleRow 15) 100 100
      (some (cell sampleRow 16)) = some (999 / 1000) := by
    simp +decide [cell, sampleRow, compute_order_notional, get_bracket_pct, ICON_MULTIPLIERS,
      sentimentMult, safe_float, pyFloat, parseUnsigned, digitsToNat, pyStrip] <;> norm_num
  have hc2 : compute_order_notional 20 0 (cell sampleRow 15) 100 100
      (some (cell sampleRow 16)) = some 1 := by
    simp +decide [cell, sampleRow, compute_order_notional, get_bracket_pct, ICON_MULTIPLIERS,
      sentimentMult, safe_float, pyFloat, parseUnsigned, digitsToNat, pyStrip] <;> norm_num
  refine ⟨by norm_num, by norm_num, ?_, ?_⟩
  · exact (min_notional_floor (999 / 50) sampleRow 100 0 100 (999 / 1000)
      hpr hpd hma hc1).1 (by norm_num)
  · have := (min_notional_floor 20 sampleRow 100 0 100 1 hpr hpd hma hc2).2 (by norm_num)
    rw [this]
    norm_num [round2, roundHalfEven]

/-- Row-loop equation: a blank symbol skips the row and leaves the state
unchanged (src/main.py lines 229-231). -/
theorem processRow_empty (bp : ℚ) (ok : String → ℚ → Bool) (st : BotState)
    (row : List String) (h : normSymbol row = "") :
    processRow bp ok st row = (st, .skipped) := by
  simp [processRow, h]

/-- Row-loop equation: an already-seen symbol skips the row (lines 233-235). -/
theorem processRow_seen (bp : ℚ) (ok : String → ℚ → Bool) (st : BotState)
    (row : List String) (h0 : ¬ normSymbol row = "") (h1 : normSymbol row ∈ st.seen) :
    processRow bp ok st row = (st, .skipped) := by
  simp [processRow, h0, h1]

/-- Row-loop equation: a failed parse/compute/floor step skips the row
(lines 242-267). -/
theorem processRow_noNotional (bp : ℚ) (ok : String → ℚ → Bool) (st : BotState)
    (row : List String) (h0 : ¬ normSymbol row = "") (h1 : normSymbol row ∉ st.seen)
    (h2 : rowNotional bp row = none) :
    processRow bp ok st row = (st, .skipped) := by
  simp [processRow, h0, h1, h2]

/-- Row-loop equation: a successful submission records the symbol and bumps
the counter (lines 282-285). -/
theorem processRow_submit (bp : ℚ) (ok : String → ℚ → Bool) (st : BotState)
    (row : List String) (n : ℚ) (h0 : ¬ normSymbol row = "")
    (h1 : normSymbol row ∉ st.seen) (h2 : rowNotional bp row = some n)
    (h3 : ok (normSymbol row) n = true) :
    processRow bp ok st row =
      (⟨normSymbol row :: st.seen, st.submitted + 1⟩, .submitted ⟨normSymbol row, n⟩) := by
  simp [processRow, h0, h1, h2, h3]

/-- Row-loop equation: a failed submission is caught and changes nothing
(lines 286-287). -/
theorem processRow_failSubmit (bp : ℚ) (ok : String → ℚ → Bool) (st : BotState)
    (row : List String) (n : ℚ) (h0 : ¬ normSymbol row = "")
    (h1 : normSymbol row ∉ st.seen) (h2 : rowNotional bp row = some n)
    (h3 : ok (normSymbol row) n = false) :
    processRow bp ok st row = (st, .failed ⟨normSymbol row, n⟩) := by
  simp [processRow, h0, h1, h2, h3]

/-- `submittedDecisions` ignores a skipped row. -/
theorem submittedDecisions_skipped (os : List RowOutcome) :
    submittedDecisions (.skipped :: os) = submittedDecisions os := rfl

/-- `submittedDecisions` ignores a failed submission. -/
theorem submittedDecisions_failed (d : OrderDecision) (os : List RowOutcome) :
    submittedDecisions (.failed d :: os) = submittedDecisions os := rfl

/-- `submittedDecisions` records a successful submission. -/
theorem submittedDecisions_submitted (d : OrderDecision) (os : List RowOutcome) :
    submittedDecisions (.submitted d :: os) = d :: submittedDecisions os := rfl

/-- Unfolding of the row loop on a nonempty row list. -/
theorem run_bot_cons (bp : ℚ) (ok : String → ℚ → Bool) (st : BotState)
    (row : List String) (rows : List (List String)) :
    run_bot bp ok st (row :: rows) =
      ((run_bot bp ok (processRow bp ok st row).1 rows).1,
        (processRow bp ok st row).2 :: (run_bot bp ok (processRow bp ok st row).1 rows).2) := rfl

/-- For a run in which every submission succeeds, the submitted decisions
carrying symbol `s` are exactly the first state-independently qualifying row
with that symbol — provided `s` is not already marked seen. -/
theorem run_filter_symbol (bp : ℚ) (s : String) (rows : List (List String)) :
    ∀ st : BotState,
      (submittedDecisions (run_bot bp (fun _ _ => true) st rows).2).filter
          (fun d => d.symbol == s) =
        if s ∈ st.seen then []
        else (rows.filterMap fun r =>
          if normSymbol r = s then rowDecision bp r else none).take 1 := by
  induction rows with
  | nil =>
    intro st
    simp [run_bot, submittedDecisions]
  | cons row rows ih =>
    intro st
    rw [run_bot_cons, List.filterMap_cons]
    by_cases h0 : normSymbol row = ""
    · have hd : rowDecision bp row = none := by simp [rowDecision, h0]
      rw [processRow_empty bp (fun _ _ => true) st row h0]
      rw [show ((st, RowOutcome.skipped).1 : BotState) = st from rfl]
      rw [submittedDecisions_skipped, ih st, hd, ite_self]
    · by_cases h1 : normSymbol row ∈ st.seen
      · rw [processRow_seen bp (fun _ _ => true) st row h0 h1]
        rw [show ((st, RowOutcome.skipped).1 : BotState) = st from rfl]
        rw [submittedDecisions_skipped, ih st]
        by_cases hs : normSymbol row = s
        · have hseen : s ∈ st.seen := hs ▸ h1
          rw [if_pos hseen, if_pos hseen]
        · rw [if_neg hs]
      · cases h2 : rowNotional bp row with
        | none =>
          have hd : rowDecision bp row = none := by simp [rowDecision, h0, h2]
          rw [processRow_noNotional bp (fun _ _ => true) st row h0 h1 h2]
          rw [show ((st, RowOutcome.skipped).1 : BotState) = st from rfl]
          rw [submittedDecisions_skipped, ih st, hd, ite_self]
        | some n =>
          have hd : rowDecision bp row = some ⟨normSymbol row, n⟩ := by
            simp [rowDecision, h0, h2]
          rw [processRow_submit bp (fun _ _ => true) st row n h0 h1 h2 rfl]
          rw [submittedDecisions_submitted, List.filter_cons, ih]
          by_cases hs : normSymbol row = s
          · have hseen' : s ∈ normSymbol row :: st.seen := by
              rw [hs]; exact List.mem_cons_self _ _
            have hnot : s ∉ st.seen := hs ▸ h1
            have hbeq : ((⟨normSymbol row, n⟩ : OrderDecision).symbol == s) = true := by
              simp [hs]
            simp only [hbeq, if_true]
            simp [hseen', hnot, hs, hd]
          · have hbeq : ((⟨normSymbol row, n⟩ : OrderDecision).symbol == s) = false := by
              simp [hs]
            have hmem : (s ∈ normSymbol row :: st.seen) ↔ s ∈ st.seen := by
              constructor
              · intro h
                rcases List.mem_cons.mp h with h' | h'
                · exact absurd h'.symm hs
                · exact h'
              · exact fun h => List.mem_cons_of_mem _ h
            simp only [hbeq, Bool.false_eq_true, if_false]
            simp [hmem, hs]

/-- Claim C2: with every submission succeeding (the spec's Row Pipeline,
where submission is an external collaborator), each symbol receives at most
one `OrderDecision` per run: the decisions whose symbol is `s` are exactly
the first row with normalized symbol `s` that passes all validation steps,
and every later row with that symbol is dropped. -/
theorem dedup_first_occurrence (bp : ℚ) (rows : List (List String)) (s : String) :
    (submittedDecisions (run_bot bp (fun _ _ => true) ⟨[], 0⟩ rows).2).filter
        (fun d => d.symbol == s) =
      (rows.filterMap fun r =>
        if normSymbol r = s then rowDecision bp r else none).take 1 := by
  have h := run_filter_symbol bp s rows ⟨[], 0⟩
  simpa using h

/-- Claim C9: a submission failure on one row is caught inside the loop —
the run is not aborted, all later rows are processed exactly as they would
have been from the same state, and the failed row itself contributes a
single failed outcome without being retried. -/
theorem submit_failure_isolated :
    ∀ (bp : ℚ) (ok : String → ℚ → Bool) (st : BotState) (row : List String)
      (rows : List (List String)) (n : ℚ),
      ¬ normSymbol row = "" →
      normSymbol row ∉ st.seen →
      rowNotional bp row = some n →
      ok (normSymbol row) n = false →
      run_bot bp ok st (row :: rows) =
        ((run_bot bp ok st rows).1,
          RowOutcome.failed ⟨normSymbol row, n⟩ :: (run_bot bp ok st rows).2) := by
  intro bp ok st row rows n h0 h1 h2 h3
  rw [run_bot_cons, processRow_failSubmit bp ok st row n h0 h1 h2 h3]

/-- Witness for C9: one failing submission on the sample row, with no
further rows, leaves the state untouched and records one failed outcome. -/
theorem submit_failure_isolated_witness :
    ¬ normSymbol sampleRow = "" ∧
    normSymbol sampleRow ∉ (⟨[], 0⟩ : BotState).seen ∧
    rowNotional 20 sampleRow = some 1 ∧
    run_bot 20 (fun _ _ => false) ⟨[], 0⟩ [sampleRow] =
      (⟨[], 0⟩, [RowOutcome.failed ⟨"AAPL", 1⟩]) := by
  have h0 : ¬ normSymbol sampleRow = "" := by decide
  have h1 : normSymbol sampleRow ∉ (⟨[], 0⟩ : BotState).seen := List.not_mem_nil _
  have h2 : rowNotional 20 sampleRow = some 1 := by
    simp +decide [rowNotional, cell, sampleRow, compute_order_notional, get_bracket_pct,
      ICON_MULTIPLIERS, sentimentMult, safe_float, pyFloat, parseUnsigned, digitsToNat,
      pyStrip, MIN_NOTIONAL] <;> norm_num [round2, roundHalfEven]
  have h := submit_failure_isolated 20 (fun _ _ => false) ⟨[], 0⟩ sampleRow [] 1 h0 h1 h2 rfl
  refine ⟨h0, h1, h2, ?_⟩
  rw [h]
  rfl

/-- Invariant step: one row iteration preserves `seen`-distinctness and the
equality between the counter and the number of seen symbols. -/
theorem processRow_inv (bp : ℚ) (ok : String → ℚ → Bool) (st : BotState) (row : List String)
    (hnd : st.seen.Nodup) (heq : st.submitted = st.seen.length) :
    (processRow bp ok st row).1.seen.Nodup ∧
    (processRow bp ok st row).1.submitted = (processRow bp ok st row).1.seen.length := by
  by_cases h0 : normSymbol row = ""
  · rw [processRow_empty bp ok st row h0]; exact ⟨hnd, heq⟩
  by_cases h1 : normSymbol row ∈ st.seen
  · rw [processRow_seen bp ok st row h0 h1]; exact ⟨hnd, heq⟩
  cases h2 : rowNotional bp row with
  | none => rw [processRow_noNotional bp ok st row h0 h1 h2]; exact ⟨hnd, heq⟩
  | some n =>
    cases h3 : ok (normSymbol row) n with
    | false => rw [processRow_failSubmit bp ok st row n h0 h1 h2 h3]; exact ⟨hnd, heq⟩
    | true =>
      rw [processRow_submit bp ok st row n h0 h1 h2 h3]
      exact ⟨List.nodup_cons.mpr ⟨h1, hnd⟩, by simp [heq]⟩

/-- Claim C10: `orders_submitted` always equals the number of symbols in
`seen_symbols` — both are updated together, only on a successful
submission; any row that does not submit successfully (skip or failure)
leaves the whole state unchanged, so a failed symbol is not marked seen and
a later row with the same symbol is processed again. -/
theorem submitted_eq_seen_invariant :
    (∀ (bp : ℚ) (ok : String → ℚ → Bool) (st : BotState) (rows : List (List String)),
      st.seen.Nodup → st.submitted = st.seen.length →
      ((run_bot bp ok st rows).1.seen.Nodup ∧
        (run_bot bp ok st rows).1.submitted = (run_bot bp ok st rows).1.seen.length)) ∧
    (∀ (bp : ℚ) (ok : String → ℚ → Bool) (st : BotState) (row : List String),
      (∀ d, (processRow bp ok st row).2 ≠ RowOutcome.submitted d) →
      (processRow bp ok st row).1 = st) := by
  constructor
  · intro bp ok st rows
    induction rows generalizing st with
    | nil => intro hnd heq; exact ⟨hnd, heq⟩
    | cons row rows ih =>
      intro hnd heq
      rw [run_bot_cons]
      have h := processRow_inv bp ok st row hnd heq
      exact ih _ h.1 h.2
  · intro bp ok st row h
    by_cases h0 : normSymbol row = ""
    · rw [processRow_empty bp ok st row h0]
    by_cases h1 : normSymbol row ∈ st.seen
    · rw [processRow_seen bp ok st row h0 h1]
    cases h2 : rowNotional bp row with
    | none => rw [processRow_noNotional bp ok st row h0 h1 h2]
    | some n =>
      cases h3 : ok (normSymbol row) n with
      | false => rw [processRow_failSubmit bp ok st row n h0 h1 h2 h3]
      | true =>
        exact absurd (by rw [processRow_submit bp ok st row n h0 h1 h2 h3])
          (h ⟨normSymbol row, n⟩)

/-- Witness for C10: the invariant holds after running the sample row from
the initial state, and a row that does not submit leaves the state as it
was. -/
theorem submitted_eq_seen_invariant_witness :
    ([] : List String).Nodup ∧ (0 : ℕ) = ([] : List String).length ∧
    ((run_bot 20 (fun _ _ => true) ⟨[], 0⟩ [sampleRow]).1.seen.Nodup ∧
      (run_bot 20 (fun _ _ => true) ⟨[], 0⟩ [sampleRow]).1.submitted =
        (run_bot 20 (fun _ _ => true) ⟨[], 0⟩ [sampleRow]).1.seen.length) ∧
    (processRow 20 (fun _ _ => true) ⟨[], 0⟩ []).1 = ⟨[], 0⟩ := by
  refine ⟨List.nodup_nil, rfl,
    submitted_eq_seen_invariant.1 20 (fun _ _ => true) ⟨[], 0⟩ [sampleRow] List.nodup_nil rfl,
    submitted_eq_seen_invariant.2 20 (fun _ _ => true) ⟨[], 0⟩ [] ?_⟩
  intro d h
  rw [processRow_empty 20 (fun _ _ => true) ⟨[], 0⟩ [] rfl] at h
  exact RowOutcome.noConfusion h
